import Mathlib

/-!
Shallow embedding of the daily Google Drive upload reminder system
(src/daily_reminder.py, src/email_utils.py) and verification of the
specification's claims about it.

External effects (the Drive API, the roster spreadsheet, the mail server)
are modelled as explicit inputs: an `Env` record holds, for one run, the
responses the external services would give; the embedded functions are
pure functions of that record, and the run additionally reports an
observable trace (log entries, dispatch attempts, query counts).
-/

/-- One `owners[...]` record of a Drive file.  The source reads
`owner.get('emailAddress', '')`, so an absent address is the empty
string. -/
structure FileOwner where
  emailAddress : String
deriving Repr, DecidableEq

/-- A file record returned by the file-listing service, with the fields
requested by `check_files_uploaded_today`
(`files(id, name, owners, modifiedTime, createdTime)`). -/
structure DriveFile where
  id : String
  name : String
  owners : List FileOwner
  modifiedTime : String
  createdTime : String
deriving Repr, DecidableEq

/-- The full paginated result the file-listing service holds for a query:
a sequence of pages, each a list of file records.  A single
`files().list(...).execute()` with no page token returns only the first
page. -/
structure DriveListResponse where
  pages : List (List DriveFile)
deriving Repr, DecidableEq

/-- What one `execute()` call yields: the first page only (the source
supplies no `pageToken` and never requests `nextPageToken`). -/
def firstPage (r : DriveListResponse) : List DriveFile :=
  r.pages.headD []

/-- All records of the paginated result, across every page: the record
set a fully-drained pagination loop would see. -/
def allPages (r : DriveListResponse) : List DriveFile :=
  r.pages.flatten

/-- Python's `str.lower()`, modelled character-wise over the string's
characters. -/
def lowerStr (s : String) : String :=
  { data := s.data.map Char.toLower }

/-- `owner.get('emailAddress', '').lower() == participant_email.lower()`
for some owner of the file. -/
def matchesOwner (participant_email : String) (f : DriveFile) : Bool :=
  f.owners.any (fun o => lowerStr o.emailAddress == lowerStr participant_email)

/-- `ImprovedDailyReminderSystem.check_files_uploaded_today`.
`listResult` is the outcome of the single
`files().list(q=..., fields=...).execute()` call the function makes:
`.error` when the call raises `HttpError` (caught, logged, `return False`),
`.ok` the paginated response otherwise, of which the code reads
`results.get('files', [])` — the first page. -/
def check_files_uploaded_today (listResult : Except String DriveListResponse)
    (participant_email : String) : Bool :=
  match listResult with
  | .error _ => false
  | .ok results =>
      let items := firstPage results
      items.any (fun f => matchesOwner participant_email f)

/-- One row of the participants spreadsheet.  Per the spec the `active`
column is an integer 0/1; the code filters `df['active'] == 1`. -/
structure Row where
  email : String
  name : String
  active : Int
deriving Repr, DecidableEq

/-- An active participant as produced by the Roster Loader
(`active_participants[['email', 'name']].to_dict('records')`). -/
structure Participant where
  email : String
  name : String
deriving Repr, DecidableEq

/-- The roster source as `pd.read_excel` exposes it to
`load_participants`: the file may be missing (`FileNotFoundError`), fail
to parse (generic `Exception`), or be a table with a set of columns and
rows. -/
inductive RosterSource where
  | missing
  | parseError (msg : String)
  | table (columns : List String) (rows : List Row)
deriving Repr, DecidableEq

def required_columns : List String := ["email", "name", "active"]

/-- `ImprovedDailyReminderSystem.load_participants`: returns `[]` on a
missing file, a parse error, or absent required columns; otherwise the
rows with `active == 1`, projected to `email`/`name`, in order. -/
def load_participants (src : RosterSource) : List Participant :=
  match src with
  | .missing => []
  | .parseError _ => []
  | .table columns rows =>
      if required_columns.all (fun c => columns.contains c) then
        (rows.filter (fun r => r.active == 1)).map
          (fun r => { email := r.email, name := r.name })
      else []

/-- A folder record returned by the folder-resolution query
(`fields="files(id, name)"`). -/
structure FolderEntry where
  id : String
  name : String
deriving Repr, DecidableEq

/-- `ImprovedDailyReminderSystem.get_drive_folder_id`.  `queryResult` is
the outcome of the folder-search `files().list(...).execute()`: `.error`
when it raises `HttpError` (caught, returns `None`), otherwise the list
of matching folders, of which the code takes `items[0]['id']` when
nonempty and returns `None` when empty. -/
def get_drive_folder_id (queryResult : Except String (List FolderEntry)) :
    Option String :=
  match queryResult with
  | .error _ => none
  | .ok items =>
      match items with
      | [] => none
      | it :: _ => some it.id

/-- An entry of the mail-related log produced by `email_utils.send_email`:
either the success line, or the failure block that records the error and
the full message content (recipient, subject, body). -/
inductive LogEntry where
  | sent (recipient subject : String)
  | sendFailed (err recipient subject body : String)
deriving Repr, DecidableEq

/-- `email_utils.send_email`.  `dispatch` is the outcome of
`mail_instance.send(msg)`: `.ok` when it returns, `.error` when it raises.
A raised exception is caught; the function logs the failure with the full
message content and returns `False` instead of propagating. -/
def send_email (dispatch : Except String Unit)
    (recipient subject body : String) : Bool × List LogEntry :=
  match dispatch with
  | .ok _ => (true, [.sent recipient subject])
  | .error e => (false, [.sendFailed e recipient subject body])

def apostropheChar : Char := Char.ofNat 39

/-- The subject line `email_utils.send_reminder_email` composes,
parameterised by the formatted current date. -/
def reminder_subject (current_date : String) : String :=
  "Diary Reminder - " ++ current_date

/-- The body `email_utils.send_reminder_email` composes (the contraction
in "We're" is spelled via `apostropheChar`). -/
def reminder_body (participant_name : String) : String :=
  "Dear " ++ participant_name ++
  ",\n\nThanks for your response! Can you update the progress of your reading yesterday? We" ++
  String.singleton apostropheChar ++
  "re really interested in your personal finding.\n\nLateOwls"

/-- `email_utils.send_reminder_email`: composes the reminder message and
delegates to `send_email`. -/
def send_reminder_email (dispatch : Except String Unit)
    (recipient participant_name current_date : String) : Bool × List LogEntry :=
  send_email dispatch recipient (reminder_subject current_date)
    (reminder_body participant_name)

/-- The external world as one reconciliation run observes it: whether the
Drive service object was initialised, the mail-username configuration,
the roster source, and the responses the external services would return
to this run's queries.  `mailDispatch` gives, per recipient address, the
outcome of `mail_instance.send`. -/
structure Env where
  driveServiceReady : Bool
  mailUsername : Option String
  roster : RosterSource
  folderQuery : Except String (List FolderEntry)
  listFiles : String → Except String DriveListResponse
  mailDispatch : String → Except String Unit
  today : String

/-- Truthiness of `self.app.config['MAIL_USERNAME']`: falsy when the
option is unset (`None`) or the empty string. -/
def mailUsernameFalsy (u : Option String) : Bool :=
  match u with
  | none => true
  | some s => s.isEmpty

/-- How `run_daily_check` ended: one of its four early `return`s, or the
completed pass with its logged counts (participants with uploads,
reminder emails sent, total participants checked). -/
inductive RunOutcome where
  | abortedNoDrive
  | abortedNoMailConfig
  | abortedNoParticipants
  | abortedNoFolder
  | completed (upload_count reminders_sent total : Nat)
deriving Repr, DecidableEq

/-- Observable trace of one `run_daily_check` call: its outcome, the mail
log, the per-participant classification lines (email paired with the
computed `uploaded_today`), the recipients to which a reminder dispatch
was attempted (in order), and how many file-listing / folder-search
queries were issued to the Drive service. -/
structure RunTrace where
  outcome : RunOutcome
  log : List LogEntry
  classifications : List (String × Bool)
  attempts : List String
  fileListQueries : Nat
  folderQueries : Nat
deriving Repr, DecidableEq

/-- Accumulator of the per-participant loop in `run_daily_check`. -/
structure LoopState where
  reminders_sent : Nat
  upload_count : Nat
  log : List LogEntry
  classifications : List (String × Bool)
  attempts : List String
  fileListQueries : Nat
deriving Repr, DecidableEq

def LoopState.initial : LoopState :=
  { reminders_sent := 0, upload_count := 0, log := [], classifications := [],
    attempts := [], fileListQueries := 0 }

/-- The `for participant in participants` loop of `run_daily_check`.
Each iteration calls `check_files_uploaded_today`, which issues one
`files().list` query (counted in `fileListQueries`); when no upload is
found it attempts `send_reminder_email`, incrementing `reminders_sent`
only when the send succeeds. -/
def checkLoop (env : Env) (folder_id : String) :
    List Participant → LoopState → LoopState
  | [], s => s
  | p :: rest, s =>
      let uploaded := check_files_uploaded_today (env.listFiles folder_id) p.email
      let s1 := { s with
        fileListQueries := s.fileListQueries + 1,
        classifications := s.classifications ++ [(p.email, uploaded)] }
      if uploaded then
        checkLoop env folder_id rest
          { s1 with upload_count := s1.upload_count + 1 }
      else
        let sendResult := send_reminder_email (env.mailDispatch p.email)
          p.email p.name env.today
        let s2 := { s1 with
          attempts := s1.attempts ++ [p.email],
          log := s1.log ++ sendResult.2 }
        checkLoop env folder_id rest
          (if sendResult.1 then
            { s2 with reminders_sent := s2.reminders_sent + 1 }
          else s2)

/-- `ImprovedDailyReminderSystem.run_daily_check`: the guard checks and
early returns, roster loading, folder resolution (one folder-search
query), then the per-participant loop, ending with the logged summary
counts. -/
def run_daily_check (env : Env) : RunTrace :=
  if !env.driveServiceReady then
    { outcome := .abortedNoDrive, log := [], classifications := [],
      attempts := [], fileListQueries := 0, folderQueries := 0 }
  else if mailUsernameFalsy env.mailUsername then
    { outcome := .abortedNoMailConfig, log := [], classifications := [],
      attempts := [], fileListQueries := 0, folderQueries := 0 }
  else
    let participants := load_participants env.roster
    if participants.isEmpty then
      { outcome := .abortedNoParticipants, log := [], classifications := [],
        attempts := [], fileListQueries := 0, folderQueries := 0 }
    else
      match get_drive_folder_id env.folderQuery with
      | none =>
          { outcome := .abortedNoFolder, log := [], classifications := [],
            attempts := [], fileListQueries := 0, folderQueries := 1 }
      | some folder_id =>
          let final := checkLoop env folder_id participants LoopState.initial
          { outcome := .completed final.upload_count final.reminders_sent
              participants.length,
            log := final.log,
            classifications := final.classifications,
            attempts := final.attempts,
            fileListQueries := final.fileListQueries,
            folderQueries := 1 }

/-- `ImprovedDailyReminderSystem.start_scheduler`: the scheduled job runs
once per daily trigger; each pass returns normally (success or aborted
run alike), so the loop proceeds to the next trigger.  Modelled on the
sequence of environments the successive triggers observe. -/
def start_scheduler (envs : List Env) : List RunTrace :=
  envs.map run_daily_check

/-- The credential environment `setup_google_services` observes: whether
`token.json` exists, whether loading it raises, the credential flags the
code tests, whether `creds.refresh(Request())` raises, and whether
`build('drive', 'v3', ...)` raises `HttpError`. -/
structure CredState where
  tokenFileExists : Bool
  loadRaises : Bool
  valid : Bool
  expired : Bool
  hasRefreshToken : Bool
  refreshRaises : Bool
  buildRaisesHttp : Bool
deriving Repr, DecidableEq

/-- `ImprovedDailyReminderSystem.setup_google_services`.  Returns
`.error` when an uncaught exception escapes the method (loading a
malformed token file, or a failing `creds.refresh`), and otherwise
`.ok b` where `b` says whether `self.drive_service` ended up set.  A
missing token file is only logged ("Please run the setup_oauth.py script
first...") and the method returns with the service unset; an `HttpError`
from `build` is caught and likewise leaves the service unset. -/
def setup_google_services (st : CredState) : Except String Bool :=
  if !st.tokenFileExists then
    .ok false
  else if st.loadRaises then
    .error "loading token.json raised"
  else if st.valid then
    if st.buildRaisesHttp then .ok false else .ok true
  else if st.expired && st.hasRefreshToken then
    if st.refreshRaises then
      .error "creds.refresh raised"
    else if st.buildRaisesHttp then .ok false else .ok true
  else
    .ok false

/-- How `main` ends at startup: `sys.exit(1)` from its `except` clause,
or entry into `start_scheduler`'s infinite loop with the Drive service
set or unset. -/
inductive MainOutcome where
  | exitedNonzero
  | enteredScheduler (driveServiceReady : Bool)
deriving Repr, DecidableEq

/-- `main`: constructing `ImprovedDailyReminderSystem` runs
`setup_google_services`; an exception escaping construction (or the
scheduler call) is caught, logged, and turned into `sys.exit(1)`.
Otherwise the process proceeds into `start_scheduler`. -/
def mainStartup (st : CredState) : MainOutcome :=
  match setup_google_services st with
  | .error _ => .exitedNonzero
  | .ok ready => .enteredScheduler ready

/-- `true` iff the outcome is the completed pass. -/
def RunOutcome.isCompleted : RunOutcome → Bool
  | .completed _ _ _ => true
  | _ => false

/-- The `uploaded_today` value the loop computes for a participant. -/
def uploadedToday (env : Env) (folder_id : String) (p : Participant) : Bool :=
  check_files_uploaded_today (env.listFiles folder_id) p.email

/-- Whether the reminder dispatch for a participant succeeds. -/
def sendOk (env : Env) (p : Participant) : Bool :=
  (send_reminder_email (env.mailDispatch p.email) p.email p.name env.today).1

/-- A file uploaded to the monitored folder today, owned by `owner`. -/
def fileFor (owner : String) : DriveFile :=
  { id := "f1", name := "survey_day1.pdf", owners := [{ emailAddress := owner }],
    modifiedTime := "2026-10-12T10:00:00", createdTime := "2026-10-12T09:00:00" }

/-- A paginated listing whose only matching record sits on page two. -/
def twoPageResp : DriveListResponse :=
  { pages := [[], [fileFor "a@x.com"]] }

/-- The roster rows of the specification's worked example:
`[("a@x.com","A",1), ("b@x.com","B",1), ("c@x.com","C",0)]`. -/
def rosterRows : List Row :=
  [{ email := "a@x.com", name := "A", active := 1 },
   { email := "b@x.com", name := "B", active := 1 },
   { email := "c@x.com", name := "C", active := 0 }]

def rosterEx : RosterSource :=
  .table ["email", "name", "active"] rosterRows

def surveyFolder : FolderEntry := { id := "fid", name := "Survey Uploads" }

/-- A healthy run over the specification's worked example: uploads today
owned by `a@x.com` only, every dispatch succeeding. -/
def envEx : Env :=
  { driveServiceReady := true,
    mailUsername := some "lateowl-survey@gmail.com",
    roster := rosterEx,
    folderQuery := .ok [surveyFolder],
    listFiles := fun _ => .ok { pages := [[fileFor "a@x.com"]] },
    mailDispatch := fun _ => .ok (),
    today := "12/10" }

/-- One active participant, no uploads, and a mail server that refuses
every dispatch. -/
def envFail : Env :=
  { driveServiceReady := true,
    mailUsername := some "lateowl-survey@gmail.com",
    roster := .table ["email", "name", "active"] [{ email := "b@x.com", name := "B", active := 1 }],
    folderQuery := .ok [surveyFolder],
    listFiles := fun _ => .ok { pages := [[]] },
    mailDispatch := fun _ => .error "SMTP connection refused",
    today := "12/10" }

/-- Two active participants, no uploads; the dispatch to the first
recipient fails and the one to the second succeeds. -/
def envTwoFail : Env :=
  { driveServiceReady := true,
    mailUsername := some "lateowl-survey@gmail.com",
    roster := .table ["email", "name", "active"]
      [{ email := "b@x.com", name := "B", active := 1 },
       { email := "d@x.com", name := "D", active := 1 }],
    folderQuery := .ok [surveyFolder],
    listFiles := fun _ => .ok { pages := [[]] },
    mailDispatch := fun e => if e == "b@x.com" then .error "SMTP refused" else .ok (),
    today := "12/10" }

/-- The healthy run but with the roster spreadsheet missing. -/
def envNoRoster : Env := { envEx with roster := .missing }

/-- The healthy run but with the Drive service never initialised. -/
def envNoDrive : Env := { envEx with driveServiceReady := false }

/-- The healthy run but with no folder matching the configured name. -/
def envNoFolder : Env := { envEx with folderQuery := .ok [] }

/-- The healthy run but with two folders matching the configured name. -/
def envAmb : Env :=
  { envEx with folderQuery := .ok [surveyFolder, { id := "id2", name := "Survey Uploads" }] }

/-- The healthy run but with every file-listing query raising
`HttpError`. -/
def envErr : Env := { envEx with listFiles := fun _ => .error "HttpError 503" }

/-- Startup with no `token.json` on disk. -/
def credsMissing : CredState :=
  { tokenFileExists := false, loadRaises := false, valid := false, expired := false,
    hasRefreshToken := false, refreshRaises := false, buildRaisesHttp := false }

/-- Startup where `token.json` exists but loading it raises. -/
def credsLoadRaise : CredState :=
  { tokenFileExists := true, loadRaises := true, valid := false, expired := false,
    hasRefreshToken := false, refreshRaises := false, buildRaisesHttp := false }

theorem checkLoop_classifications (env : Env) (folder_id : String)
    (ps : List Participant) (s : LoopState) :
    (checkLoop env folder_id ps s).classifications =
      s.classifications ++ ps.map (fun p => (p.email, uploadedToday env folder_id p)) := by
  induction ps generalizing s with
  | nil => simp [checkLoop]
  | cons p rest ih =>
    cases h : check_files_uploaded_today (env.listFiles folder_id) p.email
    · cases hc : (send_reminder_email (env.mailDispatch p.email) p.email p.name env.today).1 <;>
        simp [checkLoop, h, hc, ih, uploadedToday]
    · simp [checkLoop, h, ih, uploadedToday]

theorem checkLoop_attempts (env : Env) (folder_id : String)
    (ps : List Participant) (s : LoopState) :
    (checkLoop env folder_id ps s).attempts =
      s.attempts ++
        (ps.filter (fun p => !uploadedToday env folder_id p)).map (fun p => p.email) := by
  induction ps generalizing s with
  | nil => simp [checkLoop]
  | cons p rest ih =>
    cases h : check_files_uploaded_today (env.listFiles folder_id) p.email
    · cases hc : (send_reminder_email (env.mailDispatch p.email) p.email p.name env.today).1 <;>
        simp [checkLoop, h, hc, ih, uploadedToday, List.filter_cons]
    · simp [checkLoop, h, ih, uploadedToday, List.filter_cons]

theorem checkLoop_upload_count (env : Env) (folder_id : String)
    (ps : List Participant) (s : LoopState) :
    (checkLoop env folder_id ps s).upload_count =
      s.upload_count + (ps.filter (fun p => uploadedToday env folder_id p)).length := by
  induction ps generalizing s with
  | nil => simp [checkLoop]
  | cons p rest ih =>
    cases h : check_files_uploaded_today (env.listFiles folder_id) p.email
    · cases hc : (send_reminder_email (env.mailDispatch p.email) p.email p.name env.today).1 <;>
        simp [checkLoop, h, hc, ih, uploadedToday, List.filter_cons]
    · simp [checkLoop, h, ih, uploadedToday, List.filter_cons, Nat.add_comm,
        Nat.add_assoc, Nat.add_left_comm]

theorem checkLoop_fileListQueries (env : Env) (folder_id : String)
    (ps : List Participant) (s : LoopState) :
    (checkLoop env folder_id ps s).fileListQueries = s.fileListQueries + ps.length := by
  induction ps generalizing s with
  | nil => simp [checkLoop]
  | cons p rest ih =>
    cases h : check_files_uploaded_today (env.listFiles folder_id) p.email
    · cases hc : (send_reminder_email (env.mailDispatch p.email) p.email p.name env.today).1 <;>
        simp [checkLoop, h, hc, ih, Nat.add_comm, Nat.add_assoc, Nat.add_left_comm]
    · simp [checkLoop, h, ih, Nat.add_comm, Nat.add_assoc, Nat.add_left_comm]

theorem checkLoop_reminders_sent (env : Env) (folder_id : String)
    (ps : List Participant) (s : LoopState) :
    (checkLoop env folder_id ps s).reminders_sent =
      s.reminders_sent +
        ((ps.filter (fun p => !uploadedToday env folder_id p)).filter
          (fun p => sendOk env p)).length := by
  induction ps generalizing s with
  | nil => simp [checkLoop]
  | cons p rest ih =>
    cases h : check_files_uploaded_today (env.listFiles folder_id) p.email
    · cases hc : (send_reminder_email (env.mailDispatch p.email) p.email p.name env.today).1 <;>
        simp [checkLoop, h, hc, ih, uploadedToday, sendOk, List.filter_cons,
          Nat.add_comm, Nat.add_assoc, Nat.add_left_comm]
    · simp [checkLoop, h, ih, uploadedToday, sendOk, List.filter_cons]

/-- Unfolding of `run_daily_check` on a run that passes all the guard
checks and resolves the folder. -/
theorem run_daily_check_completed (env : Env) (folder_id : String)
    (hd : env.driveServiceReady = true)
    (hm : mailUsernameFalsy env.mailUsername = false)
    (hp : (load_participants env.roster).isEmpty = false)
    (hf : get_drive_folder_id env.folderQuery = some folder_id) :
    run_daily_check env =
      { outcome := .completed
          (checkLoop env folder_id (load_participants env.roster) LoopState.initial).upload_count
          (checkLoop env folder_id (load_participants env.roster) LoopState.initial).reminders_sent
          (load_participants env.roster).length,
        log := (checkLoop env folder_id (load_participants env.roster) LoopState.initial).log,
        classifications :=
          (checkLoop env folder_id (load_participants env.roster) LoopState.initial).classifications,
        attempts := (checkLoop env folder_id (load_participants env.roster) LoopState.initial).attempts,
        fileListQueries :=
          (checkLoop env folder_id (load_participants env.roster) LoopState.initial).fileListQueries,
        folderQueries := 1 } := by
  simp [run_daily_check, hd, hm, hp, hf]

/-- Every participant the Roster Loader emits comes from a roster row
with `active = 1` and the same email. -/
theorem mem_load_participants (columns : List String) (rows : List Row)
    (p : Participant) (hp : p ∈ load_participants (.table columns rows)) :
    ∃ r ∈ rows, r.email = p.email ∧ r.active = 1 := by
  simp only [load_participants] at hp
  split at hp
  · simp only [List.mem_map, List.mem_filter] at hp
    obtain ⟨r, ⟨hrmem, hract⟩, hproj⟩ := hp
    refine ⟨r, hrmem, ?_, ?_⟩
    · rw [← hproj]
    · simpa using hract
  · simp at hp

theorem length_filter_add_length_not {α : Type} (l : List α) (p : α → Bool) :
    (l.filter p).length + (l.filter (fun a => !p a)).length = l.length := by
  induction l with
  | nil => rfl
  | cons a t ih =>
    cases h : p a <;> simp [List.filter_cons, h, ← ih] <;> omega

/-- A run whose roster comes back empty or whose folder does not resolve
ends in one of the early returns: nothing is classified, no dispatch is
attempted, nothing is logged to the mail log. -/
theorem run_daily_check_aborts (env : Env)
    (h : load_participants env.roster = [] ∨ get_drive_folder_id env.folderQuery = none) :
    (run_daily_check env).attempts = [] ∧ (run_daily_check env).log = [] ∧
    (run_daily_check env).classifications = [] ∧
    (run_daily_check env).outcome.isCompleted = false := by
  cases hd : env.driveServiceReady with
  | false => simp [run_daily_check, hd, RunOutcome.isCompleted]
  | true =>
    cases hm : mailUsernameFalsy env.mailUsername with
    | true => simp [run_daily_check, hd, hm, RunOutcome.isCompleted]
    | false =>
      rcases h with h | h
      · simp [run_daily_check, hd, hm, h, RunOutcome.isCompleted]
      · cases hp : (load_participants env.roster).isEmpty with
        | true => simp [run_daily_check, hd, hm, hp, RunOutcome.isCompleted]
        | false => simp [run_daily_check, hd, hm, hp, h, RunOutcome.isCompleted]

/-- C1: the claim says the Upload Checker aggregates owner identities
across all pages of a paginated listing before concluding absence.  The
source issues one `files().list` call with no page token and never
follows `nextPageToken`, so it reads only the first page: on a two-page
result whose only matching record is on page two, the participant is
classified as having no upload, while the fully-drained record set does
contain a matching record. -/
theorem C1_pagination_not_drained :
    (allPages twoPageResp).any (fun f => matchesOwner "a@x.com" f) = true ∧
    check_files_uploaded_today (.ok twoPageResp) "a@x.com" = false := by
  constructor <;> decide

/-- C2: in a run over a single-page record set for the target date, each
active participant is classified as having uploaded exactly when some
record has an owner identity case-insensitively equal to the
participant's, and a reminder dispatch is attempted for exactly the other
active participants, in roster order. -/
theorem C2_classification_iff (env : Env) (folder_id : String)
    (records : List DriveFile)
    (hd : env.driveServiceReady = true)
    (hm : mailUsernameFalsy env.mailUsername = false)
    (hp : (load_participants env.roster).isEmpty = false)
    (hf : get_drive_folder_id env.folderQuery = some folder_id)
    (hl : env.listFiles folder_id = .ok { pages := [records] }) :
    (run_daily_check env).classifications =
      (load_participants env.roster).map
        (fun p => (p.email, records.any (fun f => matchesOwner p.email f))) ∧
    (run_daily_check env).attempts =
      ((load_participants env.roster).filter
        (fun p => !records.any (fun f => matchesOwner p.email f))).map
        (fun p => p.email) := by
  have hb : ∀ p : Participant, uploadedToday env folder_id p =
      records.any (fun f => matchesOwner p.email f) := by
    intro p
    simp [uploadedToday, check_files_uploaded_today, hl, firstPage]
  rw [run_daily_check_completed env folder_id hd hm hp hf]
  constructor
  · simp [checkLoop_classifications, LoopState.initial, hb]
  · simp [checkLoop_attempts, LoopState.initial, hb]

/-- C2 witness: the specification's worked example.  `a@x.com` uploaded
and is satisfied; `b@x.com` did not and gets the reminder attempt. -/
theorem C2_witness :
    (run_daily_check envEx).classifications =
      [("a@x.com", true), ("b@x.com", false)] ∧
    (run_daily_check envEx).attempts = ["b@x.com"] := by
  have h := C2_classification_iff envEx "fid" [fileFor "a@x.com"] rfl rfl rfl rfl rfl
  exact ⟨h.1.trans (by decide), h.2.trans (by decide)⟩

/-- C3: in any run over a single-page record set, a given identity
receives at most one reminder attempt (given the roster's identities are
unique, as the data model requires); an attempted reminder implies the
identity belongs to a roster row with `active = 1` and that no record
for the day has a case-insensitively equal owner identity; and an
identity is classified at all only if some roster row with `active = 1`
carries it. -/
theorem C3_reminder_invariant (env : Env) (folder_id : String)
    (columns : List String) (rows : List Row) (records : List DriveFile) (e : String)
    (hr : env.roster = .table columns rows)
    (hnodup : ((load_participants env.roster).map (fun p => p.email)).Nodup)
    (hf : get_drive_folder_id env.folderQuery = some folder_id)
    (hl : env.listFiles folder_id = .ok { pages := [records] }) :
    (run_daily_check env).attempts.count e ≤ 1 ∧
    (e ∈ (run_daily_check env).attempts →
      (∃ r ∈ rows, r.email = e ∧ r.active = 1) ∧
      records.any (fun f => matchesOwner e f) = false) ∧
    (e ∈ (run_daily_check env).classifications.map Prod.fst →
      ∃ r ∈ rows, r.email = e ∧ r.active = 1) := by
  have hb : ∀ p : Participant, uploadedToday env folder_id p =
      records.any (fun f => matchesOwner p.email f) := by
    intro p
    simp [uploadedToday, check_files_uploaded_today, hl, firstPage]
  cases hd : env.driveServiceReady with
  | false => simp [run_daily_check, hd]
  | true =>
    cases hm : mailUsernameFalsy env.mailUsername with
    | true => simp [run_daily_check, hd, hm]
    | false =>
      cases hp : (load_participants env.roster).isEmpty with
      | true => simp [run_daily_check, hd, hm, hp]
      | false =>
        rw [run_daily_check_completed env folder_id hd hm hp hf]
        have hatt : (checkLoop env folder_id (load_participants env.roster)
            LoopState.initial).attempts =
            ((load_participants env.roster).filter
              (fun p => !uploadedToday env folder_id p)).map (fun p => p.email) := by
          simp [checkLoop_attempts, LoopState.initial]
        have hcls : (checkLoop env folder_id (load_participants env.roster)
            LoopState.initial).classifications =
            (load_participants env.roster).map
              (fun p => (p.email, uploadedToday env folder_id p)) := by
          simp [checkLoop_classifications, LoopState.initial]
        refine ⟨?_, ?_, ?_⟩
        · rw [hatt]
          have hsub : (((load_participants env.roster).filter
              (fun p => !uploadedToday env folder_id p)).map (fun p => p.email)).Sublist
              ((load_participants env.roster).map (fun p => p.email)) :=
            (List.filter_sublist (load_participants env.roster)).map (fun p => p.email)
          exact List.nodup_iff_count_le_one.mp (hnodup.sublist hsub) e
        · rw [hatt]
          intro hmem
          simp only [List.mem_map, List.mem_filter] at hmem
          obtain ⟨p, ⟨hpmem, hpup⟩, hpe⟩ := hmem
          rw [hr] at hpmem
          obtain ⟨r, hrmem, hre, hract⟩ := mem_load_participants columns rows p hpmem
          refine ⟨⟨r, hrmem, by rw [hre, hpe], hract⟩, ?_⟩
          rw [hb p, hpe] at hpup
          simpa using hpup
        · rw [hcls]
          intro hmem
          simp only [List.map_map, List.mem_map, Function.comp] at hmem
          obtain ⟨p, hpmem, hpe⟩ := hmem
          rw [hr] at hpmem
          obtain ⟨r, hrmem, hre, hract⟩ := mem_load_participants columns rows p hpmem
          exact ⟨r, hrmem, by rw [hre]; exact hpe, hract⟩

/-- C3 witness: on the worked example, `b@x.com` gets exactly one
reminder attempt, from the active roster row with no matching upload
record. -/
theorem C3_witness :
    (run_daily_check envEx).attempts.count "b@x.com" ≤ 1 ∧
    ("b@x.com" ∈ (run_daily_check envEx).attempts →
      (∃ r ∈ rosterRows, r.email = "b@x.com" ∧ r.active = 1) ∧
      ([fileFor "a@x.com"].any (fun f => matchesOwner "b@x.com" f) = false)) ∧
    ("b@x.com" ∈ (run_daily_check envEx).classifications.map Prod.fst →
      ∃ r ∈ rosterRows, r.email = "b@x.com" ∧ r.active = 1) :=
  C3_reminder_invariant envEx "fid" ["email", "name", "active"] rosterRows
    [fileFor "a@x.com"] "b@x.com" rfl (by decide) rfl rfl

/-- C4 counterexample: one active participant, no uploads, failing
dispatch.  The run completes with upload count 0 and reminder count 0
while one participant was checked, so total checked differs from
satisfied plus reminded — the claimed identity does not hold when a
dispatch fails, because the reminded counter only counts successful
sends. -/
theorem C4_counterexample :
    (run_daily_check envFail).outcome = RunOutcome.completed 0 0 1 ∧ 0 + 0 ≠ 1 := by
  constructor <;> decide

/-- C4 (amended): the completed run reports upload count, the number of
successfully dispatched reminders, and the number of active
participants; satisfied plus *attempted* reminders always equals the
total, and satisfied plus the reminded counter equals the total exactly
when every attempted dispatch succeeds. -/
theorem C4_runsummary_amended (env : Env) (folder_id : String)
    (hd : env.driveServiceReady = true)
    (hm : mailUsernameFalsy env.mailUsername = false)
    (hp : (load_participants env.roster).isEmpty = false)
    (hf : get_drive_folder_id env.folderQuery = some folder_id) :
    (run_daily_check env).outcome = RunOutcome.completed
      ((load_participants env.roster).filter (fun p => uploadedToday env folder_id p)).length
      (((load_participants env.roster).filter (fun p => !uploadedToday env folder_id p)).filter
        (fun p => sendOk env p)).length
      (load_participants env.roster).length ∧
    ((load_participants env.roster).filter (fun p => uploadedToday env folder_id p)).length +
      (run_daily_check env).attempts.length = (load_participants env.roster).length ∧
    ((∀ p ∈ load_participants env.roster, sendOk env p = true) →
      ((load_participants env.roster).filter (fun p => uploadedToday env folder_id p)).length +
        (((load_participants env.roster).filter (fun p => !uploadedToday env folder_id p)).filter
          (fun p => sendOk env p)).length = (load_participants env.roster).length) := by
  rw [run_daily_check_completed env folder_id hd hm hp hf]
  refine ⟨?_, ?_, ?_⟩
  · simp [checkLoop_upload_count, checkLoop_reminders_sent, LoopState.initial]
  · rw [checkLoop_attempts]
    simp only [LoopState.initial, List.nil_append, List.length_map]
    exact length_filter_add_length_not (load_participants env.roster) _
  · intro hall
    have hself : ((load_participants env.roster).filter
        (fun p => !uploadedToday env folder_id p)).filter (fun p => sendOk env p) =
        (load_participants env.roster).filter (fun p => !uploadedToday env folder_id p) := by
      apply List.filter_eq_self.mpr
      intro p hpmem
      exact hall p (List.mem_of_mem_filter hpmem)
    rw [hself]
    exact length_filter_add_length_not (load_participants env.roster) _

/-- C4 witness: the worked example with all dispatches succeeding has
one satisfied participant, one attempted reminder, and two checked. -/
theorem C4_witness :
    (run_daily_check envEx).outcome = RunOutcome.completed 1 1 2 ∧
    1 + (run_daily_check envEx).attempts.length = 2 := by
  have h := C4_runsummary_amended envEx "fid" rfl rfl rfl rfl
  exact ⟨h.1.trans (by decide), h.2.1⟩

/-- C5 counterexample: on the worked example with two active
participants, the run issues two file-listing queries — one per
participant — not the single folder-wide query the claim states. -/
theorem C5_counterexample :
    (run_daily_check envEx).fileListQueries = 2 ∧
    (run_daily_check envEx).fileListQueries ≠ 1 := by
  constructor <;> decide

/-- C5 (amended): every completed run issues one file-listing query per
active participant (the check re-queries the external service inside the
per-participant loop) plus a single folder-resolution query; each
per-participant check is then a scan over the records its own query
returned. -/
theorem C5_queries_amended (env : Env) (folder_id : String)
    (hd : env.driveServiceReady = true)
    (hm : mailUsernameFalsy env.mailUsername = false)
    (hp : (load_participants env.roster).isEmpty = false)
    (hf : get_drive_folder_id env.folderQuery = some folder_id) :
    (run_daily_check env).fileListQueries = (load_participants env.roster).length ∧
    (run_daily_check env).folderQueries = 1 := by
  rw [run_daily_check_completed env folder_id hd hm hp hf]
  constructor
  · simp [checkLoop_fileListQueries, LoopState.initial]
  · rfl

/-- C5 witness: the single-participant run issues exactly one
file-listing query and one folder-resolution query. -/
theorem C5_witness :
    (run_daily_check envFail).fileListQueries = 1 ∧
    (run_daily_check envFail).folderQueries = 1 := by
  have h := C5_queries_amended envFail "fid" rfl rfl rfl rfl
  exact ⟨h.1.trans (by decide), h.2⟩

/-- C6: a failing dispatch is caught: `send_email` returns the failure
outcome together with a log record holding the full message content
(recipient, subject, body); and the set of recipients for which dispatch
is attempted in a run is the full list of unsatisfied active
participants, independent of which dispatches fail. -/
theorem C6_failure_caught_and_run_continues (err recipient subject body : String)
    (env : Env) (folder_id : String)
    (hd : env.driveServiceReady = true)
    (hm : mailUsernameFalsy env.mailUsername = false)
    (hp : (load_participants env.roster).isEmpty = false)
    (hf : get_drive_folder_id env.folderQuery = some folder_id) :
    send_email (.error err) recipient subject body =
      (false, [LogEntry.sendFailed err recipient subject body]) ∧
    (run_daily_check env).attempts =
      ((load_participants env.roster).filter
        (fun p => !uploadedToday env folder_id p)).map (fun p => p.email) := by
  refine ⟨rfl, ?_⟩
  rw [run_daily_check_completed env folder_id hd hm hp hf]
  simp [checkLoop_attempts, LoopState.initial]

/-- C6 witness: with two unsatisfied participants and the first
dispatch failing, the failure is returned as a logged outcome and the
second recipient is still attempted. -/
theorem C6_witness :
    send_email (.error "SMTP refused") "b@x.com" "Diary Reminder - 12/10" "body" =
      (false, [LogEntry.sendFailed "SMTP refused" "b@x.com" "Diary Reminder - 12/10" "body"]) ∧
    (run_daily_check envTwoFail).attempts = ["b@x.com", "d@x.com"] := by
  have h := C6_failure_caught_and_run_continues "SMTP refused" "b@x.com"
    "Diary Reminder - 12/10" "body" envTwoFail "fid" rfl rfl rfl rfl
  exact ⟨h.1, h.2.trans (by decide)⟩

/-- C7: the Roster Loader returns the empty sequence when the source is
missing, fails to parse, or lacks a required column; a run whose roster
comes back empty or whose folder does not resolve takes one of the early
returns — no classification, no dispatch attempt, no mail log — and the
scheduler simply proceeds to the following triggers. -/
theorem C7_run_abort (env : Env) (envs : List Env) (m : String)
    (columns : List String) (rows : List Row)
    (h : load_participants env.roster = [] ∨
      get_drive_folder_id env.folderQuery = none) :
    load_participants RosterSource.missing = [] ∧
    load_participants (RosterSource.parseError m) = [] ∧
    (required_columns.all (fun c => columns.contains c) = false →
      load_participants (RosterSource.table columns rows) = []) ∧
    (run_daily_check env).attempts = [] ∧
    (run_daily_check env).log = [] ∧
    (run_daily_check env).outcome.isCompleted = false ∧
    start_scheduler (env :: envs) = run_daily_check env :: start_scheduler envs := by
  obtain ⟨ha, hlabel, hc, ho⟩ := run_daily_check_aborts env h
  refine ⟨rfl, rfl, ?_, ha, hlabel, ho, rfl⟩
  intro hcols
  simp only [load_participants]
  rw [hcols]
  simp

/-- C7 witness: a run with the roster spreadsheet missing attempts no
dispatch, logs no mail activity, does not complete, and the scheduler
goes on to the next trigger. -/
theorem C7_witness :
    load_participants RosterSource.missing = [] ∧
    load_participants (RosterSource.parseError "bad sheet") = [] ∧
    (required_columns.all (fun c => ["email", "name"].contains c) = false →
      load_participants (RosterSource.table ["email", "name"] []) = []) ∧
    (run_daily_check envNoRoster).attempts = [] ∧
    (run_daily_check envNoRoster).log = [] ∧
    (run_daily_check envNoRoster).outcome.isCompleted = false ∧
    start_scheduler (envNoRoster :: [envEx]) =
      run_daily_check envNoRoster :: start_scheduler [envEx] :=
  C7_run_abort envNoRoster [envEx] "bad sheet" ["email", "name"] [] (Or.inl rfl)

/-- C8 counterexample: with no `token.json` on disk (credential setup
missing — the claim's own example), `setup_google_services` only logs
and returns, so startup proceeds into the scheduler loop with the Drive
service unset instead of exiting with a nonzero code. -/
theorem C8_counterexample :
    mainStartup credsMissing = MainOutcome.enteredScheduler false ∧
    mainStartup credsMissing ≠ MainOutcome.exitedNonzero := by
  constructor <;> decide

/-- C8 (amended): startup failures that raise an exception (loading a
malformed token file, a failing credential refresh) are caught in `main`
and end the process with a nonzero exit; but a missing credential setup
does not raise — the process enters the scheduler loop with the Drive
service unset, and every run then aborts immediately with no dispatch
attempts. -/
theorem C8_startup_amended (st : CredState) (env : Env)
    (henv : env.driveServiceReady = false) :
    (st.tokenFileExists = true → st.loadRaises = true →
      mainStartup st = MainOutcome.exitedNonzero) ∧
    (st.tokenFileExists = true → st.loadRaises = false → st.valid = false →
      st.expired = true → st.hasRefreshToken = true → st.refreshRaises = true →
      mainStartup st = MainOutcome.exitedNonzero) ∧
    (st.tokenFileExists = false → mainStartup st = MainOutcome.enteredScheduler false) ∧
    (run_daily_check env).outcome = RunOutcome.abortedNoDrive ∧
    (run_daily_check env).attempts = [] := by
  refine ⟨?_, ?_, ?_, ?_, ?_⟩
  · intro h1 h2
    simp [mainStartup, setup_google_services, h1, h2]
  · intro h1 h2 h3 h4 h5 h6
    simp [mainStartup, setup_google_services, h1, h2, h3, h4, h5, h6]
  · intro h1
    simp [mainStartup, setup_google_services, h1]
  · simp [run_daily_check, henv]
  · simp [run_daily_check, henv]

/-- C8 witness: a token file that raises on load exits nonzero, and a
run without the Drive service aborts with no attempts. -/
theorem C8_witness :
    mainStartup credsLoadRaise = MainOutcome.exitedNonzero ∧
    (run_daily_check envNoDrive).outcome = RunOutcome.abortedNoDrive ∧
    (run_daily_check envNoDrive).attempts = [] := by
  have h := C8_startup_amended credsLoadRaise envNoDrive rfl
  exact ⟨h.1 rfl rfl, h.2.2.2.1, h.2.2.2.2⟩

/-- C9 counterexample: with two folders matching the display name, the
resolver returns the first match's identifier and the run proceeds to
completion — the ambiguous case is not a fatal condition as the claim
states. -/
theorem C9_counterexample :
    get_drive_folder_id
      (Except.ok [surveyFolder, { id := "id2", name := "Survey Uploads" }]) =
      some "fid" ∧
    (run_daily_check envAmb).outcome.isCompleted = true := by
  constructor <;> decide

/-- C9 (amended): an absent folder (no match, or a query error) is fatal
for the run — resolution returns no identifier and the run aborts with
no dispatch attempts; an ambiguous match is not detected, and the first
matching folder's identifier is returned. -/
theorem C9_folder_resolution_amended (env : Env) (err : String)
    (it : FolderEntry) (rest : List FolderEntry)
    (hd : env.driveServiceReady = true)
    (hm : mailUsernameFalsy env.mailUsername = false)
    (hp : (load_participants env.roster).isEmpty = false)
    (hf : get_drive_folder_id env.folderQuery = none) :
    get_drive_folder_id (Except.ok ([] : List FolderEntry)) = none ∧
    get_drive_folder_id (Except.error err) = none ∧
    get_drive_folder_id (Except.ok (it :: rest)) = some it.id ∧
    (run_daily_check env).outcome = RunOutcome.abortedNoFolder ∧
    (run_daily_check env).attempts = [] := by
  refine ⟨rfl, rfl, rfl, ?_, ?_⟩ <;> simp [run_daily_check, hd, hm, hp, hf]

/-- C9 witness: no folder named "Survey Uploads" exists: resolution
yields no identifier and the run aborts before any dispatch. -/
theorem C9_witness :
    get_drive_folder_id (Except.ok ([] : List FolderEntry)) = none ∧
    get_drive_folder_id (Except.error "HttpError") = none ∧
    get_drive_folder_id (Except.ok (surveyFolder :: [])) = some surveyFolder.id ∧
    (run_daily_check envNoFolder).outcome = RunOutcome.abortedNoFolder ∧
    (run_daily_check envNoFolder).attempts = [] :=
  C9_folder_resolution_amended envNoFolder "HttpError" surveyFolder [] rfl rfl rfl rfl

/-- C10: when the file-listing query raises a service error, the check
returns `false` rather than propagating, so in a run where every listing
query fails each active participant is classified as having no upload
and a reminder dispatch is attempted for all of them. -/
theorem C10_listing_error_reminds_all (env : Env) (folder_id : String) (err e : String)
    (hd : env.driveServiceReady = true)
    (hm : mailUsernameFalsy env.mailUsername = false)
    (hp : (load_participants env.roster).isEmpty = false)
    (hf : get_drive_folder_id env.folderQuery = some folder_id)
    (hl : env.listFiles folder_id = .error err) :
    check_files_uploaded_today (env.listFiles folder_id) e = false ∧
    (run_daily_check env).classifications =
      (load_participants env.roster).map (fun p => (p.email, false)) ∧
    (run_daily_check env).attempts =
      (load_participants env.roster).map (fun p => p.email) := by
  have hb : ∀ p : Participant, uploadedToday env folder_id p = false := by
    intro p
    simp [uploadedToday, check_files_uploaded_today, hl]
  refine ⟨by simp [check_files_uploaded_today, hl], ?_, ?_⟩
  · rw [run_daily_check_completed env folder_id hd hm hp hf]
    simp [checkLoop_classifications, LoopState.initial, hb]
  · rw [run_daily_check_completed env folder_id hd hm hp hf]
    simp [checkLoop_attempts, LoopState.initial, hb]

/-- C10 witness: with every listing query failing, both active
participants of the worked example are classified as not uploaded and
both get a reminder attempt. -/
theorem C10_witness :
    check_files_uploaded_today (envErr.listFiles "fid") "a@x.com" = false ∧
    (run_daily_check envErr).classifications =
      [("a@x.com", false), ("b@x.com", false)] ∧
    (run_daily_check envErr).attempts = ["a@x.com", "b@x.com"] := by
  have h := C10_listing_error_reminds_all envErr "fid" "HttpError 503" "a@x.com"
    rfl rfl rfl rfl rfl
  exact ⟨h.1, h.2.1.trans (by decide), h.2.2.trans (by decide)⟩
